import Mathlib

/-!
# Verification of the virtual joystick controller

Shallow embedding of the `Controller::Joystick` widget implemented in
`src/virtual_joystick_controller.cpp` together with its header (`joystick.h`).

Modelling conventions:

* C++ `int` values are modelled as `Int`; C++ integer division truncates toward
  zero, which is `Int.tdiv`.
* The `char` parameters of the `valueChanged(char, char)` signal receive `int`
  arguments; the implicit conversion wraps modulo 256 into `[-128, 127]`
  (`toChar` below).
* The floating-point trigonometry of the `AllAxis` clamping branch
  (`std::sqrt`, `acos`, `cos`, `sin` on `double`) is modelled over `ℝ`
  (`clampAllReal`), and the final implicit `double`-to-`int` conversion as
  truncation toward zero (`cppTrunc`).
* `Joystick::mouseMoveEvent` is modelled for a call with the left mouse button
  held (otherwise the real handler returns immediately without touching any
  state).  The `default: throw;` path of its `switch` is modelled by `none`.
* Qt signal emission is modelled by returning the emitted argument pair.
-/

namespace Controller

/-- Enumeration `Joystick::JoystickMode` (joystick.h): the degree-of-freedom
restriction, with the C++ enumerator values `NoAxis = 0`, `XAxisOnly = 1`,
`YAxisOnly = 2`, `AllAxis = 3`. -/
inductive JoystickMode where
  | NoAxis
  | XAxisOnly
  | YAxisOnly
  | AllAxis
deriving DecidableEq, Fintype

/-- Numeric value of a `Joystick::JoystickMode` enumerator (C++ assigns 0,1,2,3
in declaration order). -/
def JoystickMode.toBits : JoystickMode → Nat
  | .NoAxis => 0
  | .XAxisOnly => 1
  | .YAxisOnly => 2
  | .AllAxis => 3

/-- Inverse of `JoystickMode.toBits`; the C++ `static_cast<JoystickMode>` back
from an `int`.  Only 0, 1, 2, 3 can arise from the bitwise operators below. -/
def JoystickMode.ofBits : Nat → JoystickMode
  | 0 => .NoAxis
  | 1 => .XAxisOnly
  | 2 => .YAxisOnly
  | _ => .AllAxis

/-- Operator `|` on `Joystick::JoystickMode` (joystick.h, via
`DEFINE_ENUM_OR_OPERATOR`): bitwise OR of the enumerator values. -/
def JoystickMode.or (a b : JoystickMode) : JoystickMode :=
  JoystickMode.ofBits (a.toBits ||| b.toBits)

/-- Operator `&` on `Joystick::JoystickMode` (joystick.h): bitwise AND of the
enumerator values. -/
def JoystickMode.and (a b : JoystickMode) : JoystickMode :=
  JoystickMode.ofBits (a.toBits &&& b.toBits)

/-- C++ implicit conversion from `int` to `char` (8-bit signed, two's
complement): wraps modulo 256 into `[-128, 127]`.  Applied to the arguments of
the `valueChanged(char x, char y)` signal. -/
def toChar (n : Int) : Int := (n + 128) % 256 - 128

/-- Free function `contains(int x, int y, int radius)`
(virtual_joystick_controller.cpp line 188): whether `(x, y)` lies inside the
circle of radius `radius` centred at the origin,
`pow(x,2) + pow(y,2) <= pow(radius,2)` (exact for `int`-sized operands). -/
def contains (x y radius : Int) : Bool :=
  decide (x ^ 2 + y ^ 2 ≤ radius ^ 2)

/-- Free function `getRadius(int width, int height)`
(virtual_joystick_controller.cpp line 314):
`qMin(w,h)/2 - qMin(w,h)/6` with C++ truncating integer division. -/
def getRadius (width height : Int) : Int :=
  (min width height).tdiv 2 - (min width height).tdiv 6

/-- Free function `getCenter(int width, int height)`
(virtual_joystick_controller.cpp line 151): `(width/2, height/2)` with C++
truncating integer division. -/
def getCenter (width height : Int) : Int × Int :=
  (width.tdiv 2, height.tdiv 2)

/-- Radii pair stored by `Joystick::resizeEvent` (lines 319-326): the travel
radius `getRadius(w,h)` for `m_joystick` and `radius / 2` for `m_controller`.
This is the spec's `computeRadii` operation. -/
def computeRadii (width height : Int) : Int × Int :=
  (getRadius width height, (getRadius width height).tdiv 2)

/-- State of a `Controller::Joystick` widget: its data members (`m_x`, `m_y`,
`m_backToZero`, `m_mode`, the radii of `m_joystick` and `m_controller`,
`m_controllerPosition`) together with the widget geometry (`width()`,
`height()`) that the member functions read.  `controllerPosition` is stored in
absolute widget coordinates, exactly as `m_controllerPosition` is. -/
structure Joystick where
  x : Int
  y : Int
  backToZero : Bool
  mode : JoystickMode
  joystickRadius : Int
  controllerRadius : Int
  controllerPosition : Int × Int
  width : Int
  height : Int
deriving DecidableEq

/-- Constructor `Joystick::Joystick` (lines 51-59): `m_x{0}`, `m_y{0}`,
`m_backToZero(true)`, `m_mode(AllAxis)`; the `Circle` members default to
radius 0, `QPoint` to `(0, 0)`, and a fresh widget has zero size. -/
def mkJoystick : Joystick where
  x := 0
  y := 0
  backToZero := true
  mode := .AllAxis
  joystickRadius := 0
  controllerRadius := 0
  controllerPosition := (0, 0)
  width := 0
  height := 0

/-- Member function `Joystick::setMode` (line 114), without the repaint. -/
def Joystick.setMode (st : Joystick) (m : JoystickMode) : Joystick :=
  { st with mode := m }

/-- Member function `Joystick::setBackToZero` (line 121). -/
def Joystick.setBackToZero (st : Joystick) (b : Bool) : Joystick :=
  { st with backToZero := b }

/-- Handler `Joystick::resizeEvent` (lines 319-326), combined with the host
having stored the new widget size: recomputes both radii and recentres the
controller. -/
def Joystick.resizeEvent (st : Joystick) (w h : Int) : Joystick :=
  { st with
    width := w
    height := h
    joystickRadius := (computeRadii w h).1
    controllerRadius := (computeRadii w h).2
    controllerPosition := getCenter w h }

/-- Handler `Joystick::mouseReleaseEvent` (lines 304-312): if `m_backToZero`
is set, put the controller back to the joystick centre; otherwise do
nothing. -/
def Joystick.mouseReleaseEvent (st : Joystick) : Joystick :=
  if st.backToZero then
    { st with controllerPosition := getCenter st.width st.height }
  else st

/-- Real-valued result of the `AllAxis` outside-circle branch of
`Joystick::mouseMoveEvent` (lines 239-253), in coordinates relative to the
widget centre and before the implicit `double`-to-`int` conversion:
`radius = sqrt(x^2 + y^2)`, `angle = acos(x / radius)`, reflected to
`angle + (pi - angle) * 2` when `y > 0`, then negated, and the result is
`(r * cos(angle), r * sin(angle))`. -/
noncomputable def clampAllReal (x y r : Int) : ℝ × ℝ :=
  let radius : ℝ := Real.sqrt ((x : ℝ) ^ 2 + (y : ℝ) ^ 2)
  let angle0 : ℝ := Real.arccos ((x : ℝ) / radius)
  let angle1 : ℝ := if 0 < y then angle0 + (Real.pi - angle0) * 2 else angle0
  ((r : ℝ) * Real.cos (-angle1), (r : ℝ) * Real.sin (-angle1))

/-- C++ implicit conversion from `double` to `int`: truncation toward zero. -/
noncomputable def cppTrunc (v : ℝ) : Int :=
  if 0 ≤ v then ⌊v⌋ else ⌈v⌉

/-- Handler `Joystick::mouseMoveEvent` (lines 216-302), modelled for a call
with the left button held (otherwise the handler returns without effect).
`(mx, my)` is the event position in widget coordinates; the recentred offset
is `(mx - width/2, my - height/2)`.  Returns `none` on the `default: throw;`
path (taken when `m_mode` is `NoAxis`), and otherwise the updated state
together with the pair passed to `emit valueChanged(x, y)` after `char`
narrowing. -/
noncomputable def Joystick.mouseMoveEvent (st : Joystick) (mx my : Int) :
    Option (Joystick × Int × Int) :=
  let x := mx - st.width.tdiv 2
  let y := my - st.height.tdiv 2
  match st.mode with
  | .AllAxis =>
    let pos :=
      if contains x y st.joystickRadius then (mx, my)
      else
        (cppTrunc ((clampAllReal x y st.joystickRadius).1 + ((st.width.tdiv 2 : Int) : ℝ)),
         cppTrunc ((clampAllReal x y st.joystickRadius).2 + ((st.height.tdiv 2 : Int) : ℝ)))
    some ({ st with controllerPosition := pos }, toChar x, toChar y)
  | .XAxisOnly =>
    let newX :=
      if x < st.joystickRadius ∧ -st.joystickRadius < x then mx
      else if 0 < x then st.width.tdiv 2 + st.joystickRadius
      else st.width.tdiv 2 - st.joystickRadius
    some ({ st with controllerPosition := (newX, st.controllerPosition.2) }, toChar x, toChar y)
  | .YAxisOnly =>
    let newY :=
      if y < st.joystickRadius ∧ -st.joystickRadius < y then my
      else if 0 < y then st.height.tdiv 2 + st.joystickRadius
      else st.height.tdiv 2 - st.joystickRadius
    some ({ st with controllerPosition := (st.controllerPosition.1, newY) }, toChar x, toChar y)
  | .NoAxis => none

/-- State after a mouse move as the host sees it: the updated state, or the
previous state on the throwing path. -/
noncomputable def Joystick.moveTo (st : Joystick) (mx my : Int) : Joystick :=
  ((st.mouseMoveEvent mx my).map Prod.fst).getD st

/-- Argument pair passed to the `valueChanged` signal by a mouse move, when
one is emitted. -/
noncomputable def Joystick.emitted (st : Joystick) (mx my : Int) : Option (Int × Int) :=
  (st.mouseMoveEvent mx my).map Prod.snd

/-- C9: with the enumerator encoding `NoAxis = 0`, `XAxisOnly = 1`,
`YAxisOnly = 2`, `AllAxis = 3`, the overloaded bitwise operators satisfy
`NoAxis | AllAxis = AllAxis`, `XAxisOnly & YAxisOnly = NoAxis` and
`XAxisOnly | YAxisOnly = AllAxis`, and on every pair of variants they act as
bitwise OR/AND of the encodings, so union and intersection stay within the
four named variants. -/
theorem C9_mode_bitwise_ops :
    JoystickMode.or .NoAxis .AllAxis = .AllAxis ∧
    JoystickMode.and .XAxisOnly .YAxisOnly = .NoAxis ∧
    JoystickMode.or .XAxisOnly .YAxisOnly = .AllAxis ∧
    ∀ a b : JoystickMode,
      (JoystickMode.or a b).toBits = a.toBits ||| b.toBits ∧
      (JoystickMode.and a b).toBits = a.toBits &&& b.toBits := by
  refine ⟨rfl, rfl, rfl, by decide⟩

/-- C6: for nonnegative widget dimensions, `computeRadii` returns the travel
radius `min(width,height)/2 - min(width,height)/6` and the handle radius
`travelRadius/2`, with integer floor division (which coincides with the C++
truncating division on this nonnegative domain); in particular
`computeRadii 300 200 = (67, 33)` and `computeRadii 100 100 = (34, 17)`. -/
theorem C6_computeRadii_formula (w h : Int) (hw : 0 ≤ w) (hh : 0 ≤ h) :
    computeRadii w h = (min w h / 2 - min w h / 6, (min w h / 2 - min w h / 6) / 2) ∧
    computeRadii 300 200 = (67, 33) ∧ computeRadii 100 100 = (34, 17) := by
  have hm : 0 ≤ min w h := le_min hw hh
  have e1 : (min w h).tdiv 2 = min w h / 2 := Int.tdiv_eq_ediv hm (by norm_num)
  have e2 : (min w h).tdiv 6 = min w h / 6 := Int.tdiv_eq_ediv hm (by norm_num)
  have hgr : getRadius w h = min w h / 2 - min w h / 6 := by
    unfold getRadius
    rw [e1, e2]
  have hg : 0 ≤ getRadius w h := by
    rw [hgr]
    omega
  have e3 : (getRadius w h).tdiv 2 = getRadius w h / 2 := Int.tdiv_eq_ediv hg (by norm_num)
  refine ⟨?_, by decide, by decide⟩
  show (getRadius w h, (getRadius w h).tdiv 2) = _
  rw [e3, hgr]

/-- Witness for C6 at the concrete widget size 300 by 200. -/
theorem C6_computeRadii_witness :
    computeRadii 300 200 =
      (min (300 : Int) 200 / 2 - min (300 : Int) 200 / 6,
        (min (300 : Int) 200 / 2 - min (300 : Int) 200 / 6) / 2) ∧
    computeRadii 300 200 = (67, 33) ∧ computeRadii 100 100 = (34, 17) := by
  have h := C6_computeRadii_formula 300 200 (by norm_num) (by norm_num)
  exact h

/-- C8: on pointer release, if the return-to-centre flag is enabled the handle
position becomes the widget centre — the boundary's centre, i.e. relative
offset `(0, 0)` — with no dependence on the travel radius; if the flag is
disabled the whole controller state is left unchanged. -/
theorem C8_release_behaviour (st : Joystick) :
    (st.backToZero = true →
      st.mouseReleaseEvent = { st with controllerPosition := getCenter st.width st.height } ∧
      st.mouseReleaseEvent.controllerPosition.1 - st.width.tdiv 2 = 0 ∧
      st.mouseReleaseEvent.controllerPosition.2 - st.height.tdiv 2 = 0) ∧
    (st.backToZero = false → st.mouseReleaseEvent = st) := by
  constructor <;> intro hb <;> simp [Joystick.mouseReleaseEvent, hb, getCenter]

/-- Witness for C8: a freshly constructed joystick (flag enabled) recentres on
release, and one with the flag disabled is left unchanged. -/
theorem C8_release_witness :
    mkJoystick.mouseReleaseEvent =
      { mkJoystick with controllerPosition := getCenter mkJoystick.width mkJoystick.height } ∧
    (mkJoystick.setBackToZero false).mouseReleaseEvent = mkJoystick.setBackToZero false :=
  ⟨((C8_release_behaviour mkJoystick).1 rfl).1,
    (C8_release_behaviour (mkJoystick.setBackToZero false)).2 rfl⟩

/-- C4 amended: under `dof = NoAxis` the position-mapping operation always
fails — `Joystick::mouseMoveEvent` reaches the `default: throw;` path, here
`none` — instead of returning the previous handle position; no state update
and no `valueChanged` emission happen on this path. -/
theorem C4_noaxis_throws (st : Joystick) (mx my : Int)
    (h : st.mode = JoystickMode.NoAxis) :
    st.mouseMoveEvent mx my = none := by
  simp [Joystick.mouseMoveEvent, h]

/-- Witness for C4 at a concrete state and input. -/
theorem C4_noaxis_witness : (mkJoystick.setMode .NoAxis).mouseMoveEvent 5 7 = none :=
  C4_noaxis_throws _ 5 7 rfl

/-- C4 counterexample: the claim asserts that under `dof = None` the operation
returns the previous handle position unchanged and does not fail; on the
reachable state below (construct, resize to 100 by 100, set mode `NoAxis`)
the call takes the `default: throw;` path — modelled as `none` — i.e. it
fails rather than returning anything. -/
theorem C4_none_fails_counterexample :
    ((mkJoystick.resizeEvent 100 100).setMode .NoAxis).mouseMoveEvent 60 60 = none := by
  rfl

/-- C2: under `dof = AllAxis`, for every recentred raw offset `(x, y)` whose
Euclidean distance from the origin is at most the travel radius, the mouse
move stores the handle exactly at the raw offset — in absolute coordinates,
exactly at the event position `(x + width/2, y + height/2)` — and emits the
`char`-narrowed offsets. -/
theorem C2_inside_handle_at_raw_offset (st : Joystick) (x y : Int)
    (hmode : st.mode = JoystickMode.AllAxis)
    (hin : Real.sqrt ((x : ℝ) ^ 2 + (y : ℝ) ^ 2) ≤ (st.joystickRadius : ℝ)) :
    st.mouseMoveEvent (x + st.width.tdiv 2) (y + st.height.tdiv 2) =
      some ({ st with controllerPosition :=
          (x + st.width.tdiv 2, y + st.height.tdiv 2) }, toChar x, toChar y) := by
  have hsq : (x : ℝ) ^ 2 + (y : ℝ) ^ 2 ≤ (st.joystickRadius : ℝ) ^ 2 :=
    (Real.sqrt_le_iff.mp hin).2
  have hc : contains x y st.joystickRadius = true := by
    simp only [contains, decide_eq_true_eq]
    exact_mod_cast hsq
  simp [Joystick.mouseMoveEvent, hmode, hc]

/-- Witness for C2: after resizing to 100 by 100 (travel radius 34), the raw
offset `(3, 4)` — distance 5 from the origin — moves the handle exactly
there. -/
theorem C2_inside_witness :
    (mkJoystick.resizeEvent 100 100).mouseMoveEvent
        (3 + (mkJoystick.resizeEvent 100 100).width.tdiv 2)
        (4 + (mkJoystick.resizeEvent 100 100).height.tdiv 2) =
      some ({ mkJoystick.resizeEvent 100 100 with controllerPosition :=
          (3 + (mkJoystick.resizeEvent 100 100).width.tdiv 2,
           4 + (mkJoystick.resizeEvent 100 100).height.tdiv 2) },
        toChar 3, toChar 4) := by
  have hrad : ((mkJoystick.resizeEvent 100 100).joystickRadius : ℝ) = 34 := by
    norm_num [show (mkJoystick.resizeEvent 100 100).joystickRadius = 34 from rfl]
  refine C2_inside_handle_at_raw_offset _ 3 4 rfl ?_
  rw [hrad, show ((3 : Int) : ℝ) ^ 2 + ((4 : Int) : ℝ) ^ 2 = (5 : ℝ) ^ 2 by norm_num,
    Real.sqrt_sq (by norm_num)]
  norm_num

/-- C5 amended: under `dof = AllAxis` the `valueChanged` notification carries
the unclamped recentred offsets narrowed to `char` by the signal signature
`valueChanged(char, char)` — hence exactly the pair `(x, y)` whenever both
offsets lie in `[-128, 127]`, including when the handle position itself was
clamped to the boundary circle (the emitted pair never depends on the
clamping). -/
theorem C5_reported_values_are_raw (st : Joystick) (x y : Int)
    (hmode : st.mode = JoystickMode.AllAxis) :
    st.emitted (x + st.width.tdiv 2) (y + st.height.tdiv 2) = some (toChar x, toChar y) ∧
    (-128 ≤ x → x ≤ 127 → -128 ≤ y → y ≤ 127 →
      st.emitted (x + st.width.tdiv 2) (y + st.height.tdiv 2) = some (x, y)) := by
  have hmain : st.emitted (x + st.width.tdiv 2) (y + st.height.tdiv 2) =
      some (toChar x, toChar y) := by
    simp [Joystick.emitted, Joystick.mouseMoveEvent, hmode]
  refine ⟨hmain, fun h1 h2 h3 h4 => ?_⟩
  rw [hmain]
  have hx : toChar x = x := by unfold toChar; omega
  have hy : toChar y = y := by unfold toChar; omega
  rw [hx, hy]

/-- Witness for C5: travel radius 50 (after resizing to 150 by 150) with raw
offset `(100, 0)` — outside the travel circle, so the handle is clamped — the
emitted pair is still the unclamped `(100, 0)`. -/
theorem C5_reported_witness :
    contains 100 0 (mkJoystick.resizeEvent 150 150).joystickRadius = false ∧
    (mkJoystick.resizeEvent 150 150).emitted
        (100 + (mkJoystick.resizeEvent 150 150).width.tdiv 2)
        (0 + (mkJoystick.resizeEvent 150 150).height.tdiv 2) = some (100, 0) :=
  ⟨by decide,
    (C5_reported_values_are_raw (mkJoystick.resizeEvent 150 150) 100 0 rfl).2
      (by decide) (by decide) (by decide) (by decide)⟩

/-- C5 counterexample: the claim asserts the notification reports exactly the
pair `(rawOffset.x, rawOffset.y)` for every raw offset; after resizing to 600
by 600 (travel radius 200) a drag to event position `(500, 300)` has recentred
offset `(200, 0)`, yet the `char`-narrowed emitted pair is `(-56, 0)`. -/
theorem C5_char_narrowing_counterexample :
    (mkJoystick.resizeEvent 600 600).emitted 500 300 = some (-56, 0) ∧
    ((-56 : Int), (0 : Int)) ≠ ((200 : Int), (0 : Int)) :=
  ⟨rfl, by decide⟩

/-- C3 amended: under `dof = XAxisOnly` a mouse move leaves the handle's
Y-coordinate unchanged at its prior value (the branch only ever assigns X, so
the relative Y is 0 exactly when it already was, e.g. from the initial or
freshly resized position — it is not forced to 0), while the relative
X-coordinate is passed through unchanged when
`-travelRadius < x < travelRadius` and otherwise clamped to `+travelRadius`
or `-travelRadius` according to the sign of `x`; the `YAxisOnly` case is
symmetric with the roles of X and Y exchanged. -/
theorem C3_single_axis_clamp (st : Joystick) (x y : Int) :
    (st.mode = JoystickMode.XAxisOnly →
      (st.moveTo (x + st.width.tdiv 2) (y + st.height.tdiv 2)).controllerPosition.2 =
          st.controllerPosition.2 ∧
      (st.moveTo (x + st.width.tdiv 2) (y + st.height.tdiv 2)).controllerPosition.1 -
          st.width.tdiv 2 =
        (if x < st.joystickRadius ∧ -st.joystickRadius < x then x
         else if 0 < x then st.joystickRadius else -st.joystickRadius)) ∧
    (st.mode = JoystickMode.YAxisOnly →
      (st.moveTo (x + st.width.tdiv 2) (y + st.height.tdiv 2)).controllerPosition.1 =
          st.controllerPosition.1 ∧
      (st.moveTo (x + st.width.tdiv 2) (y + st.height.tdiv 2)).controllerPosition.2 -
          st.height.tdiv 2 =
        (if y < st.joystickRadius ∧ -st.joystickRadius < y then y
         else if 0 < y then st.joystickRadius else -st.joystickRadius)) := by
  constructor <;> intro hm
  · by_cases h1 : x < st.joystickRadius ∧ -st.joystickRadius < x
    · simp [Joystick.moveTo, Joystick.mouseMoveEvent, hm, h1]
    · by_cases h2 : 0 < x
      · simp [Joystick.moveTo, Joystick.mouseMoveEvent, hm, h1, h2]
      · simp [Joystick.moveTo, Joystick.mouseMoveEvent, hm, h1, h2]
  · by_cases h1 : y < st.joystickRadius ∧ -st.joystickRadius < y
    · simp [Joystick.moveTo, Joystick.mouseMoveEvent, hm, h1]
    · by_cases h2 : 0 < y
      · simp [Joystick.moveTo, Joystick.mouseMoveEvent, hm, h1, h2]
      · simp [Joystick.moveTo, Joystick.mouseMoveEvent, hm, h1, h2]

/-- Witness for C3, realising the claim's scenario: travel radius 50 (resize
to 150 by 150), mode `XAxisOnly`, raw offset `(-80, 30)` from the freshly
resized state (handle at the centre): the new handle, relative to the centre,
is exactly `(-50, 0)`. -/
theorem C3_single_axis_witness :
    ((((mkJoystick.resizeEvent 150 150).setMode JoystickMode.XAxisOnly).moveTo
        (-80 + ((mkJoystick.resizeEvent 150 150).setMode JoystickMode.XAxisOnly).width.tdiv 2)
        (30 + ((mkJoystick.resizeEvent 150 150).setMode
          JoystickMode.XAxisOnly).height.tdiv 2)).controllerPosition.1 -
      ((mkJoystick.resizeEvent 150 150).setMode JoystickMode.XAxisOnly).width.tdiv 2 = -50) ∧
    ((((mkJoystick.resizeEvent 150 150).setMode JoystickMode.XAxisOnly).moveTo
        (-80 + ((mkJoystick.resizeEvent 150 150).setMode JoystickMode.XAxisOnly).width.tdiv 2)
        (30 + ((mkJoystick.resizeEvent 150 150).setMode
          JoystickMode.XAxisOnly).height.tdiv 2)).controllerPosition.2 -
      ((mkJoystick.resizeEvent 150 150).setMode JoystickMode.XAxisOnly).height.tdiv 2 = 0) := by
  have h := (C3_single_axis_clamp
    ((mkJoystick.resizeEvent 150 150).setMode JoystickMode.XAxisOnly) (-80) 30).1 rfl
  refine ⟨?_, ?_⟩
  · rw [h.2]
    decide
  · rw [h.1]
    decide

/-- C3 counterexample: the claim asserts that under `dof = XOnly` the
resulting handle Y-coordinate is 0 for every raw offset.  Reachable
refutation: construct, resize to 100 by 100 (travel radius 34, centre
`(50, 50)`), drag inside the circle to event position `(50, 70)` in `AllAxis`
mode (handle at `(50, 70)`), switch to `XAxisOnly`, then drag to `(60, 99)`:
the handle becomes `(60, 70)`, whose Y-coordinate relative to the centre is
20, not 0 — the branch preserves the prior Y instead of resetting it. -/
theorem C3_y_not_zero_counterexample :
    (((mkJoystick.resizeEvent 100 100).moveTo 50 70).setMode
        JoystickMode.XAxisOnly).mode = JoystickMode.XAxisOnly ∧
    ((((mkJoystick.resizeEvent 100 100).moveTo 50 70).setMode
          JoystickMode.XAxisOnly).moveTo 60 99).controllerPosition.2 -
      (((mkJoystick.resizeEvent 100 100).moveTo 50 70).setMode
          JoystickMode.XAxisOnly).height.tdiv 2 = 20 ∧
    (20 : Int) ≠ 0 :=
  ⟨rfl, rfl, by decide⟩

/-- Helper: each coordinate is bounded in absolute value by the Euclidean
norm. -/
theorem abs_le_euclid (a b : ℝ) : |a| ≤ Real.sqrt (a ^ 2 + b ^ 2) := by
  rw [← Real.sqrt_sq_eq_abs]
  exact Real.sqrt_le_sqrt (by nlinarith [sq_nonneg b])

/-- Helper: a coordinate divided by a positive Euclidean norm lies in
`[-1, 1]`. -/
theorem ratio_mem_unit (a b : ℝ) (hd : 0 < Real.sqrt (a ^ 2 + b ^ 2)) :
    -1 ≤ a / Real.sqrt (a ^ 2 + b ^ 2) ∧ a / Real.sqrt (a ^ 2 + b ^ 2) ≤ 1 := by
  obtain ⟨h1, h2⟩ := abs_le.mp (abs_le_euclid a b)
  constructor
  · have hneg : -a / Real.sqrt (a ^ 2 + b ^ 2) ≤ 1 := (div_le_one hd).mpr (by linarith)
    rw [neg_div] at hneg
    linarith
  · exact (div_le_one hd).mpr h2

/-- C7: with a nonnegative travel radius, the outside-circle branch — entered
exactly when `contains` is false — is never entered at the origin, the
distance `sqrt(x^2 + y^2)` fed to the direction computation is strictly
positive (so no division by zero), and the arccosine argument
`x / sqrt(x^2 + y^2)` lies in `[-1, 1]`: the branch's geometric computation
is total on its input domain. -/
theorem C7_clamp_branch_safety (x y r : Int) (_hr : 0 ≤ r)
    (h : contains x y r = false) :
    ¬(x = 0 ∧ y = 0) ∧
    0 < Real.sqrt ((x : ℝ) ^ 2 + (y : ℝ) ^ 2) ∧
    -1 ≤ (x : ℝ) / Real.sqrt ((x : ℝ) ^ 2 + (y : ℝ) ^ 2) ∧
    (x : ℝ) / Real.sqrt ((x : ℝ) ^ 2 + (y : ℝ) ^ 2) ≤ 1 := by
  have hnot : ¬(x ^ 2 + y ^ 2 ≤ r ^ 2) := by
    simpa [contains, decide_eq_false_iff_not] using h
  have hlt : r ^ 2 < x ^ 2 + y ^ 2 := not_le.mp hnot
  have hposZ : 0 < x ^ 2 + y ^ 2 := lt_of_le_of_lt (sq_nonneg r) hlt
  have hposR : (0 : ℝ) < (x : ℝ) ^ 2 + (y : ℝ) ^ 2 := by exact_mod_cast hposZ
  have hd : 0 < Real.sqrt ((x : ℝ) ^ 2 + (y : ℝ) ^ 2) := Real.sqrt_pos.mpr hposR
  obtain ⟨hb1, hb2⟩ := ratio_mem_unit (x : ℝ) (y : ℝ) hd
  refine ⟨?_, hd, hb1, hb2⟩
  rintro ⟨rfl, rfl⟩
  simp at hposZ

/-- Witness for C7 at travel radius 50 and raw offset `(100, 0)`. -/
theorem C7_clamp_branch_witness :
    (0 ≤ (50 : Int)) ∧ contains 100 0 50 = false ∧
    (¬((100 : Int) = 0 ∧ (0 : Int) = 0) ∧
      0 < Real.sqrt (((100 : Int) : ℝ) ^ 2 + ((0 : Int) : ℝ) ^ 2) ∧
      -1 ≤ ((100 : Int) : ℝ) / Real.sqrt (((100 : Int) : ℝ) ^ 2 + ((0 : Int) : ℝ) ^ 2) ∧
      ((100 : Int) : ℝ) / Real.sqrt (((100 : Int) : ℝ) ^ 2 + ((0 : Int) : ℝ) ^ 2) ≤ 1) :=
  ⟨by decide, by decide, C7_clamp_branch_safety 100 0 50 (by decide) (by decide)⟩

/-- C1: with a nonnegative travel radius, for every raw offset whose
Euclidean distance from the origin strictly exceeds the travel radius, the
clamping computation of the `AllAxis` branch returns exactly the raw offset
scaled by the factor `travelRadius / distance`: each coordinate of the result
is the corresponding raw coordinate times that (positive) factor — so the
direction from the origin to the result is the direction from the origin to
the raw offset — and the distance of the result from the origin is exactly
the travel radius.  The claim's concrete scenario `(100, 0)` with radius 50
is the witness below. -/
theorem C1_clamp_exact_on_circle (x y r : Int) (hr : 0 ≤ r)
    (hout : (r : ℝ) < Real.sqrt ((x : ℝ) ^ 2 + (y : ℝ) ^ 2)) :
    (clampAllReal x y r).1 =
      (r : ℝ) * ((x : ℝ) / Real.sqrt ((x : ℝ) ^ 2 + (y : ℝ) ^ 2)) ∧
    (clampAllReal x y r).2 =
      (r : ℝ) * ((y : ℝ) / Real.sqrt ((x : ℝ) ^ 2 + (y : ℝ) ^ 2)) ∧
    Real.sqrt ((clampAllReal x y r).1 ^ 2 + (clampAllReal x y r).2 ^ 2) = (r : ℝ) := by
  have hrR : (0 : ℝ) ≤ (r : ℝ) := by exact_mod_cast hr
  have hdpos : 0 < Real.sqrt ((x : ℝ) ^ 2 + (y : ℝ) ^ 2) := lt_of_le_of_lt hrR hout
  have hd2 : Real.sqrt ((x : ℝ) ^ 2 + (y : ℝ) ^ 2) ^ 2 = (x : ℝ) ^ 2 + (y : ℝ) ^ 2 :=
    Real.sq_sqrt (by positivity)
  have hpos : 0 < (x : ℝ) ^ 2 + (y : ℝ) ^ 2 := Real.sqrt_pos.mp hdpos
  obtain ⟨hc1, hc2⟩ := ratio_mem_unit (x : ℝ) (y : ℝ) hdpos
  have hcos : Real.cos (Real.arccos ((x : ℝ) / Real.sqrt ((x : ℝ) ^ 2 + (y : ℝ) ^ 2))) =
      (x : ℝ) / Real.sqrt ((x : ℝ) ^ 2 + (y : ℝ) ^ 2) := Real.cos_arccos hc1 hc2
  have hsin : Real.sin (Real.arccos ((x : ℝ) / Real.sqrt ((x : ℝ) ^ 2 + (y : ℝ) ^ 2))) =
      |(y : ℝ)| / Real.sqrt ((x : ℝ) ^ 2 + (y : ℝ) ^ 2) := by
    rw [Real.sin_arccos]
    have h1 : 1 - ((x : ℝ) / Real.sqrt ((x : ℝ) ^ 2 + (y : ℝ) ^ 2)) ^ 2 =
        (|(y : ℝ)| / Real.sqrt ((x : ℝ) ^ 2 + (y : ℝ) ^ 2)) ^ 2 := by
      rw [div_pow, div_pow, sq_abs, hd2]
      field_simp
    rw [h1, Real.sqrt_sq (by positivity)]
  have hmain : (clampAllReal x y r).1 =
      (r : ℝ) * ((x : ℝ) / Real.sqrt ((x : ℝ) ^ 2 + (y : ℝ) ^ 2)) ∧
      (clampAllReal x y r).2 =
      (r : ℝ) * ((y : ℝ) / Real.sqrt ((x : ℝ) ^ 2 + (y : ℝ) ^ 2)) := by
    by_cases hy : 0 < y
    · have hyR : (0 : ℝ) < (y : ℝ) := by exact_mod_cast hy
      have hang : -(Real.arccos ((x : ℝ) / Real.sqrt ((x : ℝ) ^ 2 + (y : ℝ) ^ 2)) +
            (Real.pi - Real.arccos ((x : ℝ) / Real.sqrt ((x : ℝ) ^ 2 + (y : ℝ) ^ 2))) * 2) =
          Real.arccos ((x : ℝ) / Real.sqrt ((x : ℝ) ^ 2 + (y : ℝ) ^ 2)) - 2 * Real.pi := by
        ring
      constructor
      · simp only [clampAllReal, if_pos hy]
        rw [hang, Real.cos_sub_two_pi, hcos]
      · simp only [clampAllReal, if_pos hy]
        rw [hang, Real.sin_sub_two_pi, hsin, abs_of_pos hyR]
    · have hyR : (y : ℝ) ≤ 0 := by exact_mod_cast not_lt.mp hy
      constructor
      · simp only [clampAllReal, if_neg hy]
        rw [Real.cos_neg, hcos]
      · simp only [clampAllReal, if_neg hy]
        rw [Real.sin_neg, hsin, abs_of_nonpos hyR]
        field_simp
  refine ⟨hmain.1, hmain.2, ?_⟩
  rw [hmain.1, hmain.2]
  have hnorm : ((r : ℝ) * ((x : ℝ) / Real.sqrt ((x : ℝ) ^ 2 + (y : ℝ) ^ 2))) ^ 2 +
      ((r : ℝ) * ((y : ℝ) / Real.sqrt ((x : ℝ) ^ 2 + (y : ℝ) ^ 2))) ^ 2 = (r : ℝ) ^ 2 := by
    rw [mul_pow, mul_pow, div_pow, div_pow, hd2]
    field_simp
    ring
  rw [hnorm, Real.sqrt_sq hrR]

/-- Witness for C1, which is also the claim's concrete scenario: travel
radius 50 and raw offset `(100, 0)` — distance 100, outside the circle — are
clamped to exactly `(50, 0)`. -/
theorem C1_clamp_witness :
    ((50 : Int) : ℝ) < Real.sqrt (((100 : Int) : ℝ) ^ 2 + ((0 : Int) : ℝ) ^ 2) ∧
    clampAllReal 100 0 50 = (50, 0) := by
  have hs : Real.sqrt (((100 : Int) : ℝ) ^ 2 + ((0 : Int) : ℝ) ^ 2) = 100 := by
    rw [show ((100 : Int) : ℝ) ^ 2 + ((0 : Int) : ℝ) ^ 2 = (100 : ℝ) ^ 2 by norm_num]
    exact Real.sqrt_sq (by norm_num)
  have hout : ((50 : Int) : ℝ) < Real.sqrt (((100 : Int) : ℝ) ^ 2 + ((0 : Int) : ℝ) ^ 2) := by
    rw [hs]
    norm_num
  obtain ⟨h1, h2, h3⟩ := C1_clamp_exact_on_circle 100 0 50 (by norm_num) hout
  refine ⟨hout, ?_⟩
  have e1 : (clampAllReal 100 0 50).1 = 50 := by
    rw [h1, hs]
    norm_num
  have e2 : (clampAllReal 100 0 50).2 = 0 := by
    rw [h2, hs]
    norm_num
  rw [Prod.ext_iff]
  exact ⟨e1, e2⟩

/-- C10: a newly constructed `Joystick` has the return-to-centre flag enabled,
reported axis values `x() = 0` and `y() = 0`, and `mode() = AllAxis`. -/
theorem C10_constructor_defaults :
    mkJoystick.backToZero = true ∧ mkJoystick.x = 0 ∧ mkJoystick.y = 0 ∧
      mkJoystick.mode = JoystickMode.AllAxis :=
  ⟨rfl, rfl, rfl, rfl⟩

end Controller
